import Mathlib

/-!
Shallow embedding of the gallium deposition stage-control program
(`gallium_printing_1.2.1.py`): per-axis speed-profile state, motion and
syringe primitives, the dot-printing routine, and the command dispatcher.

Python profile dictionaries are mutable objects shared by reference: an
axis stores `speed_profiles` (name to dict) and `active_profile` (a
reference to one such dict, or `None`).  We model the dict objects as
cells of an append-only `heap : List SpeedProfile`; `speed_profiles`
maps names to cell indices and `active_profile` holds an optional cell
index.  In-place mutation of a dict (as in `set_speed`) is `List.set`
on the heap cell; `set_profile` allocating a fresh dict is appending a
new cell.  Hardware calls (the zaber axis methods) are recorded as an
`Event` trace; console printing is returned as `List String` only where
a claim depends on it.  Python exceptions are `Except Err`; every raise
in the modelled code happens before any hardware call of the same
operation, so an `Except.error` result corresponds to a run that issued
no hardware call.
-/

namespace Gallium

/-- Unit tags from the zaber `Units` enumeration, restricted to the members
the program uses. -/
inductive Units where
  | NATIVE
  | LENGTH_MILLIMETRES
  | LENGTH_MICROMETRES
  | VELOCITY_MILLIMETRES_PER_SECOND
  deriving DecidableEq, Repr

/-- True exactly for velocity-dimension unit tags. -/
def Units.isVelocityUnit : Units → Bool
  | Units.VELOCITY_MILLIMETRES_PER_SECOND => true
  | _ => false

/-- One speed-profile dictionary: keys `vel`, `acc`, `unit`. -/
structure SpeedProfile where
  vel : ℚ
  acc : ℚ
  unit : Units
  deriving DecidableEq, Repr

/-- Python exceptions raised by the modelled code. -/
inductive Err where
  /-- `ValueError` from `use_profile`: named profile absent. -/
  | profileNotFound (name : String) (label : String)
  /-- `RuntimeError`: no active speed profile. -/
  | noActiveProfile (label : String)
  /-- `RuntimeError`: syringe action on a non-syringe device. -/
  | notASyringe (label : String)
  /-- `TypeError` from subscripting `None` (e.g. `move_rel` with no profile). -/
  | typeError (label : String)
  /-- `ValueError` from `float()` or `int()` on a non-numeric token. -/
  | conversionError (s : String)
  /-- `KeyError` from a missing stage-registry key. -/
  | keyError (k : String)
  /-- `IndexError` from a missing positional token. -/
  | indexError
  deriving DecidableEq, Repr

/-- True exactly for the `notASyringe` error. -/
def Err.isNotASyringe : Err → Bool
  | Err.notASyringe _ => true
  | _ => false

/-- Observable operations issued by the program: hardware calls on the
zaber axis objects, plus two bookkeeping markers (`setSpeed` for the
profile-mutation operation, which is not itself a hardware motion call,
and `approachMode` for entry into the interactive jog loop, whose
keypress-driven body is not modelled). -/
inductive Event where
  | setSpeed (label : String) (v : ℚ)
  | moveVelocity (label : String) (vel : ℚ) (acc : ℚ) (unit : Units)
  | moveRelative (label : String) (mm : ℚ) (unit : Units) (wait : Bool)
  | moveAbsolute (label : String) (pos : ℚ) (unit : Units) (wait : Bool)
  | home (label : String)
  | stop (label : String)
  | setHome (label : String)
  | approachMode (label : String) (step : ℚ)
  deriving DecidableEq, Repr

/-- The device label an event addresses. -/
def Event.label : Event → String
  | Event.setSpeed l _ => l
  | Event.moveVelocity l _ _ _ => l
  | Event.moveRelative l _ _ _ => l
  | Event.moveAbsolute l _ _ _ => l
  | Event.home l => l
  | Event.stop l => l
  | Event.setHome l => l
  | Event.approachMode l _ => l

/-- State of one `Device` wrapper.  `heap` holds the profile dict objects
ever allocated for this axis; `speed_profiles` maps names to heap cells;
`active_profile` is an optional reference (cell index).  `min_pos` and
`max_pos` are the limits read from hardware at construction. -/
structure Device where
  label : String
  min_pos : ℚ
  max_pos : ℚ
  heap : List SpeedProfile
  speed_profiles : List (String × ℕ)
  active_profile : Option ℕ
  deriving DecidableEq, Repr

/-- Insert or overwrite a key in an insertion-ordered association list,
matching Python dict assignment. -/
def assocUpd {β : Type} (m : List (String × β)) (k : String) (v : β) :
    List (String × β) :=
  match m with
  | [] => [(k, v)]
  | (k2, v2) :: rest =>
      if k2 = k then (k, v) :: rest else (k2, v2) :: assocUpd rest k v

/-- The profile dict the default profile is created with:
velocity 1 mm/s, acceleration 0. -/
def defaultProfileValue : SpeedProfile :=
  { vel := 1, acc := 0, unit := Units.VELOCITY_MILLIMETRES_PER_SECOND }

/-- `Device.default_profile`: create a "default" profile if none exists
and activate it if no profile is active. -/
def Device.default_profile (d : Device) : Device :=
  let d1 :=
    if (d.speed_profiles.lookup "default").isSome then d
    else { d with
            heap := d.heap ++ [defaultProfileValue],
            speed_profiles := assocUpd d.speed_profiles "default" d.heap.length }
  match d1.active_profile with
  | some _ => d1
  | none => { d1 with active_profile := d1.speed_profiles.lookup "default" }

/-- `Device.__init__`: limits from hardware, empty profile map, then
`default_profile()`. -/
def mkDevice (label : String) (minP maxP : ℚ) : Device :=
  Device.default_profile
    { label := label, min_pos := minP, max_pos := maxP,
      heap := [], speed_profiles := [], active_profile := none }

/-- `Device.set_profile`: allocate a fresh profile dict and bind the name
to it (Python default arguments: acceleration 0, unit
`Units.LENGTH_MILLIMETRES`; callers in this file always pass all
arguments explicitly). -/
def Device.set_profile (d : Device) (name : String) (velocity : ℚ)
    (acceleration : ℚ) (unit : Units) : Device :=
  { d with
      heap := d.heap ++ [{ vel := velocity, acc := acceleration, unit := unit }],
      speed_profiles := assocUpd d.speed_profiles name d.heap.length }

/-- `Device.use_profile`: activate the named profile, `ValueError` if
absent. -/
def Device.use_profile (d : Device) (name : String) : Except Err Device :=
  match d.speed_profiles.lookup name with
  | none => Except.error (Err.profileNotFound name d.label)
  | some i => Except.ok { d with active_profile := some i }

/-- `Device.set_speed`: fall back to `default_profile` (with a printed
warning) when no profile is active, then mutate the active profile dict
in place to velocity `mm_per_s`, acceleration 0, velocity unit.  Returns
the new device state, the warning lines printed, and the bookkeeping
trace marker. -/
def Device.set_speed (d : Device) (mm_per_s : ℚ) :
    Device × List String × List Event :=
  let fallback :=
    match d.active_profile with
    | none => (d.default_profile,
        ["Warning: No active speed profile, set to default profile."])
    | some _ => (d, [])
  let d1 := fallback.1
  let newProf : SpeedProfile :=
    { vel := mm_per_s, acc := 0, unit := Units.VELOCITY_MILLIMETRES_PER_SECOND }
  let d2 :=
    match d1.active_profile with
    | none => d1
    | some i => { d1 with heap := d1.heap.set i newProf }
  (d2, fallback.2, [Event.setSpeed d.label mm_per_s])

/-- `Device.get_speed`: 0 when no active profile, else the active
velocity.  (The heap-miss branch is a model artifact, unreachable for
devices built by `mkDevice` and the operations here.) -/
def Device.get_speed (d : Device) : ℚ :=
  match d.active_profile with
  | none => 0
  | some i =>
      match d.heap[i]? with
      | some p => p.vel
      | none => 0

/-- `Device.check_limit`: print a warning when the value is out of the
limit range and return `True` unconditionally. -/
def Device.check_limit (d : Device) (move : ℚ) : List String × Bool :=
  (if move < d.min_pos ∨ move > d.max_pos then ["Movement out of bounds."] else [],
   true)

/-- The profile dict currently referenced by `active_profile`, if any. -/
def Device.activeProf (d : Device) : Option SpeedProfile :=
  d.active_profile.bind (fun i => d.heap[i]?)

/-- Velocity-configuration call followed by a relative positional move:
the two hardware calls every relative-move style operation issues. -/
def relMoveCall (label : String) (p : SpeedProfile) (mm : ℚ) (unit : Units)
    (wait : Bool) : List Event :=
  [Event.moveVelocity label p.vel p.acc p.unit,
   Event.moveRelative label mm unit wait]

/-- `Device.move_rel`: dereference the active profile (a `TypeError` if
`None`), then issue `move_velocity` and a relative `move_relative` of
`mm` millimetres.  No limit check of any kind is performed. -/
def Device.move_rel (d : Device) (mm : ℚ) (wait : Bool) :
    Except Err (List Event) :=
  match d.activeProf with
  | none => Except.error (Err.typeError d.label)
  | some prof => Except.ok (relMoveCall d.label prof mm Units.LENGTH_MILLIMETRES wait)

/-- `Device.move_to`: `RuntimeError` when no active profile, else
`move_velocity` then an absolute move in millimetres. -/
def Device.move_to (d : Device) (position_native : ℚ) (wait : Bool) :
    Except Err (List Event) :=
  match d.active_profile with
  | none => Except.error (Err.noActiveProfile d.label)
  | some i =>
      match d.heap[i]? with
      | none => Except.error (Err.typeError d.label)
      | some prof =>
          Except.ok
            [Event.moveVelocity d.label prof.vel prof.acc prof.unit,
             Event.moveAbsolute d.label position_native Units.LENGTH_MILLIMETRES wait]

/-- `Device.move_abs`: wrapper around `move_to`. -/
def Device.move_abs (d : Device) (mm : ℚ) (wait : Bool) :
    Except Err (List Event) :=
  d.move_to mm wait

/-- `Device.home`: a single hardware home call. -/
def Device.home (d : Device) : List Event :=
  [Event.home d.label]

/-- `Device.stop`: a single hardware stop call. -/
def Device.stop (d : Device) : List Event :=
  [Event.stop d.label]

/-- `Device.set_home_here`: a single hardware `set_home` call (redefines
the reference position, no motion). -/
def Device.set_home_here (d : Device) : List Event :=
  [Event.setHome d.label]

/-- `Device.is_syringe`: true exactly for the device labelled
`stage_s`. -/
def Device.is_syringe (d : Device) : Bool :=
  d.label = "stage_s"

/-- `Device.syringe_dispense`: `RuntimeError` if not the syringe device,
then `RuntimeError` if no active profile, then `move_velocity` followed
by a relative move of `+mm` in MICROmetres. -/
def Device.syringe_dispense (d : Device) (mm : ℚ) (wait : Bool) :
    Except Err (List Event) :=
  if ¬ d.is_syringe then Except.error (Err.notASyringe d.label)
  else
    match d.active_profile with
    | none => Except.error (Err.noActiveProfile d.label)
    | some i =>
        match d.heap[i]? with
        | none => Except.error (Err.typeError d.label)
        | some prof =>
            Except.ok (relMoveCall d.label prof mm Units.LENGTH_MICROMETRES wait)

/-- `Device.syringe_retract`: same guards in the same order, then
`move_velocity` followed by a relative move of `-abs(mm)` in
MILLImetres. -/
def Device.syringe_retract (d : Device) (mm : ℚ) (wait : Bool) :
    Except Err (List Event) :=
  if ¬ d.is_syringe then Except.error (Err.notASyringe d.label)
  else
    match d.active_profile with
    | none => Except.error (Err.noActiveProfile d.label)
    | some i =>
        match d.heap[i]? with
        | none => Except.error (Err.typeError d.label)
        | some prof =>
            Except.ok (relMoveCall d.label prof (-|mm|) Units.LENGTH_MILLIMETRES wait)

/-- Concatenate a list of lists (event-trace pieces). -/
def flatJoin {α : Type} : List (List α) → List α
  | [] => []
  | l :: ls => l ++ flatJoin ls

/-- Python `range(n)` for an `int` argument: empty when `n <= 0`. -/
def pyRange (n : ℤ) : List ℤ :=
  (List.range n.toNat).map Int.ofNat

/-- Body of one iteration of the `make_dots` loop: z up 2 mm, dispense,
z down 2 mm, and an x move of `spacing` for every dot except the last. -/
def dotStep (sx1 sz ss : Device) (dots : ℤ) (spacing amt : ℚ) (i : ℤ) :
    Except Err (List Event) := do
  let e1 ← sz.move_rel 2 true
  let e2 ← ss.syringe_dispense amt true
  let e3 ← sz.move_rel (-2) true
  let e4 ← if i < dots - 1 then sx1.move_rel spacing true else pure []
  pure (e1 ++ e2 ++ e3 ++ e4)

/-- `make_dots`: set the x speed to the source literal 0.2 mm/s (the
exact rational 1/5 here), run the per-dot loop, then
home the x axis.  Returns the updated devices (only `stage_x` changes,
via `set_speed`) and the full operation trace. -/
def make_dots (sx sy sz ss : Device) (dots : ℤ) (spacing amt : ℚ) :
    Except Err ((Device × Device × Device × Device) × List Event) := do
  let r := sx.set_speed (1/5)
  let sx1 := r.1
  let ev0 := r.2.2
  let evss ← (pyRange dots).mapM (dotStep sx1 sz ss dots spacing amt)
  pure ((sx1, sy, sz, ss), ev0 ++ flatJoin evss ++ sx1.home)

/-- The stage registry: label to `Device`, insertion-ordered. -/
abbrev Stages := List (String × Device)

/-- Python `stages[k]`: `KeyError` when absent. -/
def lookupStage (stages : Stages) (k : String) : Except Err Device :=
  match stages.lookup k with
  | some d => Except.ok d
  | none => Except.error (Err.keyError k)

/-- True for the whitespace characters Python `str.split()` splits on
(the ones a command line can contain). -/
def isWs (c : Char) : Bool :=
  c = ' ' ∨ c = '\t' ∨ c = '\n' ∨ c = '\r'

/-- Accumulator-based whitespace splitter: `acc` holds the current token
reversed. -/
def splitWsAux : List Char → List Char → List String
  | [], acc => if acc = [] then [] else [String.mk acc.reverse]
  | c :: rest, acc =>
      if isWs c then
        if acc = [] then splitWsAux rest []
        else String.mk acc.reverse :: splitWsAux rest []
      else splitWsAux rest (c :: acc)

/-- Python `str.split()` with no separator: split on whitespace runs,
discarding empty pieces. -/
def pySplit (s : String) : List String :=
  splitWsAux s.data []

/-- ASCII lower-casing of one character, as Python `str.lower()` does on
the command vocabulary. -/
def lowerChar (c : Char) : Char :=
  if 65 ≤ c.toNat ∧ c.toNat ≤ 90 then Char.ofNat (c.toNat + 32) else c

/-- Python `str.lower()` (ASCII range). -/
def pyLower (s : String) : String :=
  String.mk (s.data.map lowerChar)

/-- Positional token access, `IndexError` when out of range. -/
def getTok (l : List String) (i : ℕ) : Except Err String :=
  match l.get? i with
  | some t => Except.ok t
  | none => Except.error Err.indexError

/-- Numeric value of a decimal-digit list, most significant first. -/
def digitsToNat (cs : List Char) : ℕ :=
  cs.foldl (fun a c => a * 10 + (c.toNat - 48)) 0

/-- Unsigned part of `pyFloat`: `sgn` is the parsed sign, `rest` the
remaining characters, `s` the whole literal (for the error message). -/
def pyFloatCore (sgn : ℚ) (rest : List Char) (s : String) : Except Err ℚ :=
  match rest.splitOn '.' with
  | [ip] =>
      if ip ≠ [] ∧ ip.all Char.isDigit then
        Except.ok (sgn * (digitsToNat ip : ℚ))
      else Except.error (Err.conversionError s)
  | [ip, fp] =>
      if (ip ≠ [] ∨ fp ≠ []) ∧ ip.all Char.isDigit ∧ fp.all Char.isDigit then
        Except.ok (sgn *
          ((digitsToNat ip : ℚ) + (digitsToNat fp : ℚ) / ((10 : ℚ) ^ fp.length)))
      else Except.error (Err.conversionError s)
  | _ => Except.error (Err.conversionError s)

/-- Python `float()` on the plain decimal literals the program can meet:
optional sign, digits, at most one decimal point, at least one digit.
`ValueError` otherwise. -/
def pyFloat (s : String) : Except Err ℚ :=
  match s.data with
  | '-' :: t => pyFloatCore (-1) t s
  | '+' :: t => pyFloatCore 1 t s
  | t => pyFloatCore 1 t s

/-- Python `int()` on plain decimal integer literals: optional sign and
digits.  `ValueError` otherwise. -/
def pyInt (s : String) : Except Err ℤ :=
  let cs := s.data
  let sgnRest :=
    match cs with
    | '-' :: t => ((-1 : ℤ), t)
    | '+' :: t => ((1 : ℤ), t)
    | t => ((1 : ℤ), t)
  if sgnRest.2 ≠ [] ∧ sgnRest.2.all Char.isDigit then
    Except.ok (sgnRest.1 * (digitsToNat sgnRest.2 : ℤ))
  else Except.error (Err.conversionError s)

/-- The `case "syringe"` arm of `handle_command`: usage message when too
few tokens, else the target device is always `stages["stage_s"]`, then
the sub-action dispatch. -/
def syringeArm (partcmd : List String) (stages : Stages) :
    Except Err (Bool × Stages × List Event) :=
  if partcmd.length < 3 then Except.ok (true, stages, [])
  else do
    let aTok ← getTok partcmd 1
    let action := pyLower aTok
    let dev ← lookupStage stages "stage_s"
    if action = "dispense" then do
      let mmS ← getTok partcmd 2
      let mm ← pyFloat mmS
      let evs ← dev.syringe_dispense mm false
      pure (true, stages, evs)
    else if action = "retract" then do
      let mmS ← getTok partcmd 2
      let mm ← pyFloat mmS
      let evs ← dev.syringe_retract mm false
      pure (true, stages, evs)
    else if action = "speed" then do
      let vS ← getTok partcmd 2
      let v ← pyFloat vS
      let r := dev.set_speed v
      pure (true, assocUpd stages "stage_s" r.1, r.2.2)
    else pure (true, stages, [])

/-- `handle_command` on the already-split token list.  Result: `false` in
the first component means exit the loop; the registry is returned with
any mutated devices written back (Python mutates the shared objects in
place); the trace lists the operations issued.  `Except.error` is an
exception escaping `handle_command` (none of its branches catches
anything). -/
def handleTokens (partcmd : List String) (stages : Stages) :
    Except Err (Bool × Stages × List Event) :=
  match partcmd with
  | [] => Except.ok (true, stages, [])
  | c0 :: _ =>
    let cmd := pyLower c0
    if cmd = "exit" then Except.ok (false, stages, [])
    else if cmd = "help" then Except.ok (true, stages, [])
    else if cmd = "move" then
      if partcmd.length < 3 then Except.ok (true, stages, [])
      else do
        let t1 ← getTok partcmd 1
        if t1 = "abs" then do
          let axisTok ← getTok partcmd 2
          let mmS ← getTok partcmd 3
          let mm ← pyFloat mmS
          let dev ← lookupStage stages ("stage_" ++ axisTok)
          let evs ← dev.move_abs mm false
          pure (true, stages, evs)
        else do
          let mmS ← getTok partcmd 2
          let mm ← pyFloat mmS
          let dev ← lookupStage stages ("stage_" ++ t1)
          let evs ← dev.move_rel mm false
          pure (true, stages, evs)
    else if cmd = "home" then
      if partcmd.length = 2 ∧ partcmd.get? 1 = some "all" then
        Except.ok (true, stages, flatJoin (stages.map (fun p => p.2.home)))
      else do
        let axisTok ← getTok partcmd 1
        let dev ← lookupStage stages ("stage_" ++ axisTok)
        pure (true, stages, dev.home)
    else if cmd = "sethome" then do
      let axisTok ← getTok partcmd 1
      let dev ← lookupStage stages ("stage_" ++ axisTok)
      pure (true, stages, dev.home)
    else if cmd = "speed" then do
      let axisTok ← getTok partcmd 1
      let vS ← getTok partcmd 2
      let v ← pyFloat vS
      let dev ← lookupStage stages ("stage_" ++ axisTok)
      let r := dev.set_speed v
      pure (true, assocUpd stages ("stage_" ++ axisTok) r.1, r.2.2)
    else if cmd = "getspeed" then do
      let axisTok ← getTok partcmd 1
      let _dev ← lookupStage stages ("stage_" ++ axisTok)
      pure (true, stages, [])
    else if cmd = "syringe" then syringeArm partcmd stages
    else if cmd = "approach" then do
      let axisTok ← getTok partcmd 1
      let dev ← lookupStage stages ("stage_" ++ axisTok)
      let stS ← getTok partcmd 2
      let st ← pyFloat stS
      pure (true, stages, [Event.approachMode dev.label st])
    else if cmd = "makedots" then do
      let nS ← getTok partcmd 1
      let n ← pyInt nS
      let spS ← getTok partcmd 2
      let sp ← pyFloat spS
      let amS ← getTok partcmd 3
      let am ← pyFloat amS
      let dx ← lookupStage stages "stage_x"
      let dy ← lookupStage stages "stage_y"
      let dz ← lookupStage stages "stage_z"
      let dsy ← lookupStage stages "stage_s"
      let r ← make_dots dx dy dz dsy n sp am
      let st1 := assocUpd (assocUpd (assocUpd (assocUpd stages
            "stage_x" r.1.1) "stage_y" r.1.2.1) "stage_z" r.1.2.2.1)
            "stage_s" r.1.2.2.2
      pure (true, st1, r.2)
    else Except.ok (true, stages, [])

/-- `handle_command` on a raw input line: strip and whitespace-split,
then dispatch. -/
def handle_command (line : String) (stages : Stages) :
    Except Err (Bool × Stages × List Event) :=
  handleTokens (pySplit line) stages

/-- Outcome of one iteration of the `main` command loop. -/
inductive MainOutcome where
  /-- Command handled, loop continues with the updated registry. -/
  | cont (stages : Stages) (events : List Event)
  /-- `exit` command: the loop breaks, the program ends cleanly. -/
  | exitLoop (stages : Stages) (events : List Event)
  /-- An exception escaped `handle_command`: the top-level handler prints
  a fatal-error message and the process exits with the given code. -/
  | fatal (code : ℕ) (e : Err)
  deriving DecidableEq, Repr

/-- One iteration of the `main` loop: dispatch the line; an uncaught
exception reaches the top-level `except Exception` handler, which prints
a fatal-error message and calls `sys.exit(1)`. -/
def mainStep (line : String) (stages : Stages) : MainOutcome :=
  match handle_command line stages with
  | Except.ok (true, s, evs) => MainOutcome.cont s evs
  | Except.ok (false, s, evs) => MainOutcome.exitLoop s evs
  | Except.error e => MainOutcome.fatal 1 e

/-- A concrete registry as `main` builds it: one device per label, each
constructed by `Device.__init__` (the numeric limits are hardware-read
model values; no claim depends on them). -/
def stdStages : Stages :=
  [("stage_x", mkDevice "stage_x" 0 100),
   ("stage_y", mkDevice "stage_y" 0 200),
   ("stage_z", mkDevice "stage_z" 0 50),
   ("stage_s", mkDevice "stage_s" 0 50)]

/-- A bare syringe-axis device with no profiles at all (no active
profile, empty mapping): the state the profile-fallback path of
`set_speed` must cope with. -/
def bareSyringe : Device :=
  { label := "stage_s", min_pos := 0, max_pos := 50, heap := [],
    speed_profiles := [], active_profile := none }

/-- The spec invariant, reference reading: the profile object referenced
by `active_profile` is an entry of the profile mapping (some name maps to
the same cell). -/
def activeInMapping (d : Device) : Bool :=
  match d.active_profile with
  | some i => d.speed_profiles.any (fun p => p.2 = i)
  | none => false

/-- The spec invariant, value reading: some mapping entry holds a profile
equal in value to the active one.  Used to show the counterexample does
not depend on reference identity. -/
def activeValInMapping (d : Device) : Bool :=
  match d.activeProf with
  | some p => d.speed_profiles.any (fun nm => d.heap[nm.2]? = some p)
  | none => false

/-- Well-formed indices: the active reference and every mapping entry
point inside the heap.  Holds for every device reachable from
`mkDevice` by the operations of this file. -/
def Device.wfIdx (d : Device) : Bool :=
  (match d.active_profile with
   | some i => i < d.heap.length
   | none => true) &&
  d.speed_profiles.all (fun p => p.2 < d.heap.length)

/-- One profile operation, for stating the profile-mapping invariant. -/
inductive ProfOp where
  | defineP (name : String) (vel : ℚ) (acc : ℚ) (unit : Units)
  | selectP (name : String)
  | setVel (v : ℚ)
  | defaultP
  deriving DecidableEq, Repr

/-- Apply one profile operation; a failed `select` raises before any
assignment, leaving the device untouched. -/
def applyProfOp (d : Device) : ProfOp → Device
  | ProfOp.defineP n v a u => d.set_profile n v a u
  | ProfOp.selectP n =>
      match d.use_profile n with
      | Except.ok d2 => d2
      | Except.error _ => d
  | ProfOp.setVel v => (d.set_speed v).1
  | ProfOp.defaultP => d.default_profile

/-- Guard under which a profile operation preserves the invariant:
`defineP` must not overwrite the name currently bound to the active
profile object; every other operation is unconditionally safe. -/
def opKeepsActive (d : Device) : ProfOp → Bool
  | ProfOp.defineP n _ _ _ =>
      match d.active_profile with
      | some i => d.speed_profiles.lookup n ≠ some i
      | none => true
  | _ => true

/-- Trace of one dot of the printing routine, written from the spec
wording: a velocity-configured +2 mm z move, a dispense of `amt`, a
velocity-configured -2 mm z move, and an x move of `spacing` for every
dot except the last (each relative move is the `move_velocity` +
`move_relative` hardware pair of section 4.2). -/
def dotBlock (xl zl sl : String) (px pz ps : SpeedProfile) (c : ℕ)
    (spacing amt : ℚ) (i : ℕ) : List Event :=
  relMoveCall zl pz 2 Units.LENGTH_MILLIMETRES true ++
  relMoveCall sl ps amt Units.LENGTH_MICROMETRES true ++
  relMoveCall zl pz (-2) Units.LENGTH_MILLIMETRES true ++
  (if i + 1 < c then relMoveCall xl px spacing Units.LENGTH_MILLIMETRES true else [])

/-- Full trace claimed for the dot-printing routine: one x speed-set to
0.2, the per-dot blocks in order, one final x home. -/
def dotsSpecTrace (xl zl sl : String) (px pz ps : SpeedProfile) (c : ℕ)
    (spacing amt : ℚ) : List Event :=
  Event.setSpeed xl (1/5) ::
    (flatJoin ((List.range c).map (dotBlock xl zl sl px pz ps c spacing amt)) ++
     [Event.home xl])

/-- Checker for one syringe operation result: not a `notASyringe`
failure, and on success every issued operation addresses `stage_s`. -/
def evListOk (r : Except Err (List Event)) : Bool :=
  match r with
  | Except.error e => ! e.isNotASyringe
  | Except.ok evs => evs.all (fun ev => ev.label = "stage_s")

/-- Checker for the syringe-dispatch claim: the dispatch result is not a
`notASyringe` failure, and on success every issued operation addresses
`stage_s`. -/
def syringeDispatchOk (r : Except Err (Bool × Stages × List Event)) : Bool :=
  match r with
  | Except.error e => ! e.isNotASyringe
  | Except.ok (_, _, evs) => evs.all (fun ev => ev.label = "stage_s")

/-! Helper lemmas shared by the claim theorems. -/

theorem except_bind_ok {α β : Type} (a : α) (f : α → Except Err β) :
    (Except.ok a : Except Err α) >>= f = f a := rfl

theorem except_bind_error {α β : Type} (e : Err) (f : α → Except Err β) :
    (Except.error e : Except Err α) >>= f = Except.error e := rfl

theorem getElem?_set_self {α : Type} (l : List α) (i : ℕ) (a : α)
    (h : i < l.length) : (l.set i a)[i]? = some a := by
  induction l generalizing i with
  | nil => simp at h
  | cons b t ih =>
    cases i with
    | zero => simp
    | succ j => simpa using ih j (by simpa using h)

theorem lookup_cons {β : Type} (k k2 : String) (v2 : β) (t : List (String × β)) :
    ((k2, v2) :: t).lookup k = if k = k2 then some v2 else t.lookup k := by
  by_cases h : k = k2
  · simp [List.lookup, h]
  · have hb : (k == k2) = false := beq_eq_false_iff_ne.mpr h
    simp [List.lookup, hb, h]

theorem lookup_assocUpd_self {β : Type} (m : List (String × β)) (k : String) (v : β) :
    (assocUpd m k v).lookup k = some v := by
  induction m with
  | nil => simp [assocUpd, lookup_cons]
  | cons p t ih =>
    obtain ⟨k2, v2⟩ := p
    by_cases h : k2 = k
    · simp [assocUpd, h, lookup_cons]
    · simp [assocUpd, h, lookup_cons, ih, Ne.symm h]

theorem lookup_none_assocUpd {β : Type} (m : List (String × β)) (k : String) (v : β)
    (h : m.lookup k = none) : assocUpd m k v = m ++ [(k, v)] := by
  induction m with
  | nil => rfl
  | cons p t ih =>
    obtain ⟨k2, v2⟩ := p
    rw [lookup_cons] at h
    by_cases hk : k = k2
    · rw [if_pos hk] at h
      exact absurd h (by simp)
    · rw [if_neg hk] at h
      simp [assocUpd, Ne.symm hk, ih h]

theorem any_of_lookup {β : Type} [DecidableEq β] (m : List (String × β))
    (k : String) (j : β) (h : m.lookup k = some j) :
    m.any (fun p => p.2 = j) = true := by
  induction m with
  | nil => simp [List.lookup] at h
  | cons p t ih =>
    obtain ⟨k2, v2⟩ := p
    rw [lookup_cons] at h
    by_cases hk : k = k2
    · simp [hk] at h
      simp [h]
    · simp [hk] at h
      simp [ih h]

theorem any_assocUpd_keep {β : Type} [DecidableEq β] (m : List (String × β))
    (k : String) (v : β) (i : β)
    (h1 : m.any (fun p => p.2 = i) = true) (h2 : m.lookup k ≠ some i) :
    (assocUpd m k v).any (fun p => p.2 = i) = true := by
  induction m with
  | nil => simp at h1
  | cons p t ih =>
    obtain ⟨k2, v2⟩ := p
    rw [lookup_cons] at h2
    rw [List.any_cons, Bool.or_eq_true] at h1
    by_cases hk : k2 = k
    · rw [if_pos (hk.symm)] at h2
      have hv2 : v2 ≠ i := by
        intro hc
        exact h2 (by rw [hc])
      rcases h1 with h1 | h1
      · exact absurd (of_decide_eq_true h1) hv2
      · rw [assocUpd, if_pos hk, List.any_cons, Bool.or_eq_true]
        right
        exact h1
    · rw [if_neg (fun hc => hk hc.symm)] at h2
      rcases h1 with h1 | h1
      · rw [assocUpd, if_neg hk, List.any_cons, Bool.or_eq_true]
        left
        exact h1
      · rw [assocUpd, if_neg hk, List.any_cons, Bool.or_eq_true]
        right
        exact ih h1 h2

theorem label_default_profile (d : Device) : d.default_profile.label = d.label := by
  unfold Device.default_profile
  split
  · dsimp only
    split <;> rfl
  · dsimp only
    split <;> rfl

theorem label_set_speed (d : Device) (v : ℚ) : (d.set_speed v).1.label = d.label := by
  unfold Device.set_speed
  cases h : d.active_profile
  · simp only [h]
    cases hh : d.default_profile.active_profile <;>
      simp [label_default_profile]
  · simp only [h]

theorem activeProf_elim (d : Device) (p : SpeedProfile) (h : d.activeProf = some p) :
    ∃ i, d.active_profile = some i ∧ d.heap[i]? = some p := by
  unfold Device.activeProf at h
  exact Option.bind_eq_some.mp h

theorem move_rel_ok (d : Device) (p : SpeedProfile) (mm : ℚ) (w : Bool)
    (h : d.activeProf = some p) :
    d.move_rel mm w =
      Except.ok (relMoveCall d.label p mm Units.LENGTH_MILLIMETRES w) := by
  unfold Device.move_rel
  rw [h]

theorem syringe_dispense_ok (d : Device) (p : SpeedProfile) (mm : ℚ) (w : Bool)
    (hl : d.label = "stage_s") (h : d.activeProf = some p) :
    d.syringe_dispense mm w =
      Except.ok (relMoveCall d.label p mm Units.LENGTH_MICROMETRES w) := by
  obtain ⟨i, hi, hp⟩ := activeProf_elim d p h
  simp [Device.syringe_dispense, Device.is_syringe, hl, hi, hp]

theorem count_flatJoin {α : Type} [DecidableEq α] (ls : List (List α)) (a : α) :
    (flatJoin ls).count a = (ls.map (fun l => l.count a)).sum := by
  induction ls with
  | nil => rfl
  | cons l t ih => simp [flatJoin, List.count_append, ih]

theorem mapM_ok {α β : Type} (f : α → Except Err β) (g : α → β) (l : List α)
    (h : ∀ x ∈ l, f x = Except.ok (g x)) :
    l.mapM f = Except.ok (l.map g) := by
  induction l with
  | nil => rfl
  | cons x t ih =>
    rw [List.mapM_cons, h x (by simp), ih (fun y hy => h y (by simp [hy]))]
    rfl

theorem sum_map_one (n : ℕ) : ((List.range n).map (fun _ => (1 : ℕ))).sum = n := by
  simp

theorem sum_map_if_lt (n : ℕ) :
    ((List.range n).map (fun k => if k + 1 < n then (1 : ℕ) else 0)).sum = n - 1 := by
  induction n with
  | zero => rfl
  | succ m _ =>
    rw [List.range_succ, List.map_append, List.sum_append]
    have h1 : (List.range m).map (fun k => if k + 1 < m + 1 then (1 : ℕ) else 0) =
        (List.range m).map (fun _ => (1 : ℕ)) := by
      apply List.map_congr_left
      intro k hk
      have : k < m := List.mem_range.mp hk
      simp [Nat.succ_lt_succ this]
    rw [h1, sum_map_one]
    simp

theorem all_lookup_lt (m : List (String × ℕ)) (k : String) (j L : ℕ)
    (hall : m.all (fun p => p.2 < L) = true) (h : m.lookup k = some j) :
    j < L := by
  induction m with
  | nil => simp [List.lookup] at h
  | cons p t ih =>
    obtain ⟨k2, v2⟩ := p
    rw [List.all_cons, Bool.and_eq_true] at hall
    rw [lookup_cons] at h
    by_cases hk : k = k2
    · rw [if_pos hk] at h
      injection h with h
      subst h
      exact of_decide_eq_true hall.1
    · rw [if_neg hk] at h
      exact ih hall.2 h

theorem pyFloatCore_error_shape (sgn : ℚ) (rest : List Char) (s : String)
    (e : Err) (h : pyFloatCore sgn rest s = Except.error e) :
    e = Err.conversionError s := by
  unfold pyFloatCore at h
  split at h
  · split at h
    · exact absurd h (by simp)
    · injection h with h
      exact h.symm
  · split at h
    · exact absurd h (by simp)
    · injection h with h
      exact h.symm
  · injection h with h
    exact h.symm

theorem pyFloat_error_shape (s : String) (e : Err)
    (h : pyFloat s = Except.error e) : e = Err.conversionError s := by
  unfold pyFloat at h
  split at h <;> exact pyFloatCore_error_shape _ _ _ _ h

theorem evListOk_dispense (d : Device) (mm : ℚ) (w : Bool)
    (hl : d.label = "stage_s") :
    evListOk (d.syringe_dispense mm w) = true := by
  have hsy : d.is_syringe = true := by simp [Device.is_syringe, hl]
  unfold Device.syringe_dispense
  rw [hsy]
  simp only [not_true, if_false]
  cases hA : d.active_profile with
  | none => rfl
  | some i =>
    dsimp only
    cases hp : d.heap[i]? with
    | none => rfl
    | some prof => simp [evListOk, relMoveCall, Event.label, hl]

theorem evListOk_retract (d : Device) (mm : ℚ) (w : Bool)
    (hl : d.label = "stage_s") :
    evListOk (d.syringe_retract mm w) = true := by
  have hsy : d.is_syringe = true := by simp [Device.is_syringe, hl]
  unfold Device.syringe_retract
  rw [hsy]
  simp only [not_true, if_false]
  cases hA : d.active_profile with
  | none => rfl
  | some i =>
    dsimp only
    cases hp : d.heap[i]? with
    | none => rfl
    | some prof => simp [evListOk, relMoveCall, Event.label, hl]

/-! Claim theorems. -/

/-- C2, counterexample: the claim asserts that defining (overwriting) a
profile under the name of the currently active profile preserves the
invariant that `active_profile` refers to an entry of the profile
mapping.  On a freshly constructed device (where the invariant holds),
`set_profile "default" 2 0 _` rebinds the name "default" to a freshly
allocated profile dict while `active_profile` keeps referencing the old
dict: the invariant is then violated both by reference
(`activeInMapping`) and by value (`activeValInMapping`). -/
theorem C2_counterexample_overwrite_active :
    activeInMapping (mkDevice "stage_x" 0 100) = true ∧
    activeInMapping (applyProfOp (mkDevice "stage_x" 0 100)
      (ProfOp.defineP "default" 2 0 Units.LENGTH_MILLIMETRES)) = false ∧
    activeValInMapping (applyProfOp (mkDevice "stage_x" 0 100)
      (ProfOp.defineP "default" 2 0 Units.LENGTH_MILLIMETRES)) = false :=
  ⟨by decide, by decide, by decide⟩

theorem activeInMapping_elim (d : Device) (h : activeInMapping d = true) :
    ∃ i, d.active_profile = some i ∧
      d.speed_profiles.any (fun p => p.2 = i) = true := by
  unfold activeInMapping at h
  cases hA : d.active_profile with
  | none => rw [hA] at h; exact absurd h (by simp)
  | some i =>
    rw [hA] at h
    exact ⟨i, rfl, h⟩

theorem activeInMapping_set_profile (d : Device) (n : String) (v a : ℚ)
    (u : Units) (h : activeInMapping d = true)
    (hg : opKeepsActive d (ProfOp.defineP n v a u) = true) :
    activeInMapping (d.set_profile n v a u) = true := by
  obtain ⟨i, hAi, hany⟩ := activeInMapping_elim d h
  unfold opKeepsActive at hg
  rw [hAi] at hg
  unfold Device.set_profile activeInMapping
  dsimp only
  rw [hAi]
  exact any_assocUpd_keep _ _ _ _ hany (of_decide_eq_true hg)

theorem activeInMapping_use_profile (d d2 : Device) (n : String)
    (h : d.use_profile n = Except.ok d2) :
    activeInMapping d2 = true := by
  unfold Device.use_profile at h
  cases hL : d.speed_profiles.lookup n with
  | none => rw [hL] at h; exact absurd h (by simp)
  | some j =>
    rw [hL] at h
    injection h with h
    subst h
    unfold activeInMapping
    dsimp only
    exact any_of_lookup _ _ _ hL

theorem activeInMapping_mk (d : Device) (i : ℕ)
    (hAi : d.active_profile = some i)
    (hany : d.speed_profiles.any (fun p => p.2 = i) = true) :
    activeInMapping d = true := by
  unfold activeInMapping
  rw [hAi]
  exact hany

theorem set_speed_eq_some (d : Device) (v : ℚ) (i : ℕ)
    (hAi : d.active_profile = some i) :
    d.set_speed v =
      ({ d with heap := d.heap.set i (SpeedProfile.mk v 0 Units.VELOCITY_MILLIMETRES_PER_SECOND) }, [],
       [Event.setSpeed d.label v]) := by
  unfold Device.set_speed
  simp only [hAi]

theorem activeInMapping_set_speed (d : Device) (v : ℚ)
    (h : activeInMapping d = true) :
    activeInMapping (d.set_speed v).1 = true := by
  obtain ⟨i, hAi, hany⟩ := activeInMapping_elim d h
  rw [set_speed_eq_some d v i hAi]
  apply activeInMapping_mk _ i
  · exact hAi
  · exact hany

theorem activeInMapping_default_profile (d : Device)
    (h : activeInMapping d = true) :
    activeInMapping d.default_profile = true := by
  obtain ⟨i, hAi, hany⟩ := activeInMapping_elim d h
  unfold Device.default_profile
  by_cases hL : (d.speed_profiles.lookup "default").isSome
  · rw [if_pos hL]
    dsimp only
    rw [hAi]
    dsimp only
    exact h
  · rw [if_neg hL]
    dsimp only
    rw [hAi]
    dsimp only
    apply activeInMapping_mk _ i
    · rfl
    · rw [lookup_none_assocUpd _ _ _ (Option.not_isSome_iff_eq_none.mp hL)]
      rw [List.any_append, Bool.or_eq_true]
      left
      exact hany

/-- C2, amended: the invariant `activeInMapping` holds after construction
and is preserved by every profile operation (`use_profile`,
`set_speed`, `default_profile`) except `set_profile` on a name currently
bound to the active profile object; `set_profile` preserves it whenever
the overwritten name is not the one bound to the active profile
(`opKeepsActive`). -/
theorem C2_invariant_amended (d : Device) (op : ProfOp) (l : String)
    (mn mx : ℚ) (h : activeInMapping d = true)
    (hg : opKeepsActive d op = true) :
    activeInMapping (mkDevice l mn mx) = true ∧
    activeInMapping (applyProfOp d op) = true := by
  constructor
  · rfl
  · cases op with
    | defineP n v a u => exact activeInMapping_set_profile d n v a u h hg
    | selectP n =>
      unfold applyProfOp
      dsimp only
      cases hE : d.use_profile n with
      | error e => exact h
      | ok d2 => exact activeInMapping_use_profile d d2 n hE
    | setVel v => exact activeInMapping_set_speed d v h
    | defaultP => exact activeInMapping_default_profile d h

/-- C2 witness: the amended preservation theorem applied at a concrete
device and the `select "default"` operation. -/
theorem C2_invariant_amended_witness :
    activeInMapping (mkDevice "stage_y" 0 200) = true ∧
    activeInMapping (applyProfOp (mkDevice "stage_x" 0 100)
      (ProfOp.selectP "default")) = true :=
  C2_invariant_amended (mkDevice "stage_x" 0 100) (ProfOp.selectP "default")
    "stage_y" 0 200 (by decide) (by decide)

/-- C3: dispatching `sethome x` does NOT invoke the mark-home-here
operation: the dispatcher calls `Device.home()` (a motion command that
drives the axis to the existing hardware reference position), while the
unused `Device.set_home_here` is the operation that would redefine the
reference without moving.  This contradicts the program's own help text
("sethome x -> mark current pos as home"). -/
theorem C3_sethome_dispatch_homes :
    handle_command "sethome x" stdStages =
      Except.ok (true, stdStages, [Event.home "stage_x"]) ∧
    Device.set_home_here (mkDevice "stage_x" 0 100) = [Event.setHome "stage_x"] ∧
    [Event.home "stage_x"] ≠ [Event.setHome "stage_x"] :=
  ⟨rfl, rfl, by decide⟩

/-- C4: for every delta (in range or not), `move_rel` issues the
velocity-configuration call and the relative move; `check_limit` returns
`true` unconditionally and merely produces a warning line when the value
is outside `[min_pos, max_pos]`.  Nothing in `move_rel` consults
`check_limit` or the limits. -/
theorem C4_move_rel_unchecked (d : Device) (delta : ℚ) (wait : Bool)
    (p : SpeedProfile) (h : d.activeProf = some p) :
    d.move_rel delta wait =
      Except.ok [Event.moveVelocity d.label p.vel p.acc p.unit,
        Event.moveRelative d.label delta Units.LENGTH_MILLIMETRES wait] ∧
    (d.check_limit delta).2 = true ∧
    (d.check_limit delta).1 =
      (if delta < d.min_pos ∨ delta > d.max_pos
       then ["Movement out of bounds."] else []) := by
  refine ⟨?_, rfl, rfl⟩
  rw [move_rel_ok d p delta wait h]
  rfl

/-- C4 witness: a move of 999 mm on an axis limited to `[0, 100]` is
still issued; `check_limit` only warns. -/
theorem C4_move_rel_unchecked_witness :
    (mkDevice "stage_x" 0 100).move_rel 999 false =
      Except.ok [Event.moveVelocity "stage_x" 1 0
          Units.VELOCITY_MILLIMETRES_PER_SECOND,
        Event.moveRelative "stage_x" 999 Units.LENGTH_MILLIMETRES false] ∧
    ((mkDevice "stage_x" 0 100).check_limit 999).2 = true ∧
    ((mkDevice "stage_x" 0 100).check_limit 999).1 =
      ["Movement out of bounds."] := by
  have h := C4_move_rel_unchecked (mkDevice "stage_x" 0 100) 999 false
    { vel := 1, acc := 0, unit := Units.VELOCITY_MILLIMETRES_PER_SECOND }
    (by decide)
  exact ⟨h.1, h.2.1, by decide⟩

/-- C5: on the syringe device, `syringe_retract` issues a relative move
of `-abs(amount)` (non-positive for every input sign) in MILLImetres,
while `syringe_dispense` issues `+amount` in MICROmetres. -/
theorem C5_retract_sign_units (d : Device) (amt : ℚ) (w : Bool)
    (p : SpeedProfile) (hl : d.label = "stage_s")
    (h : d.activeProf = some p) :
    d.syringe_retract amt w =
      Except.ok [Event.moveVelocity "stage_s" p.vel p.acc p.unit,
        Event.moveRelative "stage_s" (-|amt|) Units.LENGTH_MILLIMETRES w] ∧
    -|amt| ≤ 0 ∧
    d.syringe_dispense amt w =
      Except.ok [Event.moveVelocity "stage_s" p.vel p.acc p.unit,
        Event.moveRelative "stage_s" amt Units.LENGTH_MICROMETRES w] := by
  obtain ⟨i, hi, hp⟩ := activeProf_elim d p h
  refine ⟨?_, neg_nonpos.mpr (abs_nonneg amt), ?_⟩
  · simp [Device.syringe_retract, Device.is_syringe, hl, hi, hp, relMoveCall]
  · simp [Device.syringe_dispense, Device.is_syringe, hl, hi, hp, relMoveCall]

/-- C5 witness: retracting with the negative input -3 still moves by
`-abs(-3)`, a non-positive displacement, in millimetres; dispensing -3
moves by -3 micrometres. -/
theorem C5_retract_sign_units_witness :
    (mkDevice "stage_s" 0 50).syringe_retract (-3) false =
      Except.ok [Event.moveVelocity "stage_s" 1 0
          Units.VELOCITY_MILLIMETRES_PER_SECOND,
        Event.moveRelative "stage_s" (-|(-3 : ℚ)|)
          Units.LENGTH_MILLIMETRES false] ∧
    -|(-3 : ℚ)| ≤ 0 ∧
    (mkDevice "stage_s" 0 50).syringe_dispense (-3) false =
      Except.ok [Event.moveVelocity "stage_s" 1 0
          Units.VELOCITY_MILLIMETRES_PER_SECOND,
        Event.moveRelative "stage_s" (-3) Units.LENGTH_MICROMETRES false] :=
  C5_retract_sign_units (mkDevice "stage_s" 0 50) (-3) false
    { vel := 1, acc := 0, unit := Units.VELOCITY_MILLIMETRES_PER_SECOND }
    rfl (by decide)

/-- C6: on any device that is not the syringe, both `syringe_dispense`
and `syringe_retract` fail with `notASyringe` (and hence issue no
hardware call), regardless of the profile state: the device-type check
precedes the active-profile check. -/
theorem C6_not_a_syringe_first (d : Device) (amt : ℚ) (w : Bool)
    (h : d.label ≠ "stage_s") :
    d.syringe_dispense amt w = Except.error (Err.notASyringe d.label) ∧
    d.syringe_retract amt w = Except.error (Err.notASyringe d.label) := by
  constructor <;>
    simp [Device.syringe_dispense, Device.syringe_retract,
      Device.is_syringe, h]

/-- C6 witness: a non-syringe device with NO active profile still fails
with `notASyringe`, not `noActiveProfile`. -/
theorem C6_not_a_syringe_first_witness :
    Device.syringe_dispense
      { label := "stage_x", min_pos := 0, max_pos := 100, heap := [],
        speed_profiles := [], active_profile := none } 1 false =
      Except.error (Err.notASyringe "stage_x") ∧
    Device.syringe_retract
      { label := "stage_x", min_pos := 0, max_pos := 100, heap := [],
        speed_profiles := [], active_profile := none } 1 false =
      Except.error (Err.notASyringe "stage_x") :=
  C6_not_a_syringe_first _ 1 false (by decide)

theorem default_profile_none_some (d : Device) (j : ℕ)
    (hA : d.active_profile = none)
    (hL : d.speed_profiles.lookup "default" = some j) :
    d.default_profile = { d with active_profile := some j } := by
  unfold Device.default_profile
  simp only [hL, hA, Option.isSome_some, if_true]

theorem default_profile_none_none (d : Device)
    (hA : d.active_profile = none)
    (hL : d.speed_profiles.lookup "default" = none) :
    d.default_profile =
      { d with
          heap := d.heap ++ [defaultProfileValue],
          speed_profiles := assocUpd d.speed_profiles "default" d.heap.length,
          active_profile := some d.heap.length } := by
  unfold Device.default_profile
  simp [hL, hA, lookup_assocUpd_self]

/-- C7: `set_speed` leaves the active profile with velocity `value`,
acceleration 0 and the velocity unit tag; when no profile is active it
does not fail but first creates/activates the "default" profile,
emitting exactly the non-fatal warning line, and ends with the active
profile bound to the "default" mapping entry; when a profile is active
no warning is printed. -/
theorem C7_set_speed_behaviour (d : Device) (v : ℚ) (h : d.wfIdx = true) :
    (d.set_speed v).1.activeProf =
      some { vel := v, acc := 0, unit := Units.VELOCITY_MILLIMETRES_PER_SECOND } ∧
    Units.isVelocityUnit Units.VELOCITY_MILLIMETRES_PER_SECOND = true ∧
    (d.active_profile = none →
      (d.set_speed v).2.1 =
        ["Warning: No active speed profile, set to default profile."] ∧
      ((d.set_speed v).1.speed_profiles.lookup "default").isSome = true ∧
      (d.set_speed v).1.active_profile =
        (d.set_speed v).1.speed_profiles.lookup "default") ∧
    (∀ i, d.active_profile = some i → (d.set_speed v).2.1 = []) := by
  rw [Device.wfIdx, Bool.and_eq_true] at h
  obtain ⟨h1, h2⟩ := h
  cases hA : d.active_profile with
  | some i =>
    rw [hA] at h1
    have hi : i < d.heap.length := of_decide_eq_true h1
    rw [set_speed_eq_some d v i hA]
    refine ⟨?_, rfl, ?_, ?_⟩
    · simp [Device.activeProf, hA, getElem?_set_self _ _ _ hi]
    · intro hnone
      exact absurd hnone (by simp)
    · intro j hj
      rfl
  | none =>
    cases hL : d.speed_profiles.lookup "default" with
    | some j =>
      have hj : j < d.heap.length := all_lookup_lt _ _ _ _ h2 hL
      have hd := default_profile_none_some d j hA hL
      have heq : d.set_speed v =
          ({ d with
              heap := d.heap.set j (SpeedProfile.mk v 0 Units.VELOCITY_MILLIMETRES_PER_SECOND),
              active_profile := some j },
           ["Warning: No active speed profile, set to default profile."],
           [Event.setSpeed d.label v]) := by
        unfold Device.set_speed
        simp only [hA, hd]
      rw [heq]
      refine ⟨?_, rfl, ?_, ?_⟩
      · simp [Device.activeProf, getElem?_set_self _ _ _ hj]
      · intro _
        refine ⟨rfl, ?_, ?_⟩
        · show (d.speed_profiles.lookup "default").isSome = true
          rw [hL]
          rfl
        · show some j = d.speed_profiles.lookup "default"
          rw [hL]
      · intro k hk
        exact absurd hk (by simp)
    | none =>
      have hd := default_profile_none_none d hA hL
      have hlen : d.heap.length < (d.heap ++ [defaultProfileValue]).length := by
        simp
      have heq : d.set_speed v =
          ({ d with
              heap := (d.heap ++ [defaultProfileValue]).set d.heap.length (SpeedProfile.mk v 0 Units.VELOCITY_MILLIMETRES_PER_SECOND),
              speed_profiles := assocUpd d.speed_profiles "default" d.heap.length,
              active_profile := some d.heap.length },
           ["Warning: No active speed profile, set to default profile."],
           [Event.setSpeed d.label v]) := by
        unfold Device.set_speed
        simp only [hA, hd]
      rw [heq]
      refine ⟨?_, rfl, ?_, ?_⟩
      · simp [Device.activeProf, getElem?_set_self _ _ _ hlen]
      · intro _
        refine ⟨rfl, ?_, ?_⟩
        · show ((assocUpd d.speed_profiles "default" d.heap.length).lookup "default").isSome = true
          rw [lookup_assocUpd_self]
          rfl
        · show some d.heap.length =
            (assocUpd d.speed_profiles "default" d.heap.length).lookup "default"
          rw [lookup_assocUpd_self]
      · intro k hk
        exact absurd hk (by simp)

/-- C7 witness: `set_speed` on a profile-less syringe device succeeds,
creates and activates "default", warns, and leaves velocity 5/2,
acceleration 0, velocity unit. -/
theorem C7_set_speed_behaviour_witness :
    (bareSyringe.set_speed (5/2)).1.activeProf =
      some { vel := 5/2, acc := 0, unit := Units.VELOCITY_MILLIMETRES_PER_SECOND } ∧
    (bareSyringe.set_speed (5/2)).2.1 =
      ["Warning: No active speed profile, set to default profile."] ∧
    ((bareSyringe.set_speed (5/2)).1.speed_profiles.lookup "default").isSome = true ∧
    (bareSyringe.set_speed (5/2)).1.active_profile =
      (bareSyringe.set_speed (5/2)).1.speed_profiles.lookup "default" := by
  have h := C7_set_speed_behaviour bareSyringe (5/2) (by decide)
  have h3 := h.2.2.1 rfl
  exact ⟨h.1, h3.1, h3.2.1, h3.2.2⟩

/-- C8: `use_profile` on an absent name fails with the
profile-not-found error (the exception is raised before any assignment,
so the device state, in particular the previously active profile, is
untouched); on a present name it returns the device with only
`active_profile` changed, bound to that entry. -/
theorem C8_use_profile_select (d : Device) (name : String) :
    (d.speed_profiles.lookup name = none →
      d.use_profile name = Except.error (Err.profileNotFound name d.label)) ∧
    ∀ i, d.speed_profiles.lookup name = some i →
      d.use_profile name = Except.ok { d with active_profile := some i } := by
  constructor
  · intro h
    unfold Device.use_profile
    rw [h]
  · intro i h
    unfold Device.use_profile
    rw [h]

/-- C8 witness: selecting an undefined profile on a freshly constructed
axis fails with profile-not-found; selecting "default" succeeds and
changes only the active profile. -/
theorem C8_use_profile_select_witness :
    (mkDevice "stage_x" 0 100).use_profile "nope" =
      Except.error (Err.profileNotFound "nope" "stage_x") ∧
    (mkDevice "stage_x" 0 100).use_profile "default" =
      Except.ok { mkDevice "stage_x" 0 100 with active_profile := some 0 } :=
  ⟨(C8_use_profile_select (mkDevice "stage_x" 0 100) "nope").1 rfl,
   (C8_use_profile_select (mkDevice "stage_x" 0 100) "default").2 0 rfl⟩

/-- C9: a recognized verb with a non-numeric numeric argument
(`move x abc`): the `float()` conversion error is not caught in
`handle_command`; it propagates to the top-level handler of `main`,
which prints a fatal-error message and exits with code 1, for any
registry contents. -/
theorem C9_conversion_error_fatal (stages : Stages) :
    handle_command "move x abc" stages =
      Except.error (Err.conversionError "abc") ∧
    mainStep "move x abc" stages =
      MainOutcome.fatal 1 (Err.conversionError "abc") :=
  ⟨rfl, rfl⟩

/-- C10: for any registry whose `stage_s` entry is labelled `stage_s`
(as `main` builds it), `syringe dispense ...` and `syringe retract ...`
always act on that entry: the dispatch result is never the
`notASyringe` error and every hardware call it issues addresses
`stage_s`, regardless of the remaining arguments. -/
theorem C10_syringe_dispatch (stages : Stages) (dev : Device)
    (act : String) (rest : List String)
    (hs : stages.lookup "stage_s" = some dev) (hl : dev.label = "stage_s")
    (ha : pyLower act = "dispense" ∨ pyLower act = "retract") :
    syringeDispatchOk (handleTokens ("syringe" :: act :: rest) stages) = true := by
  have hred : handleTokens ("syringe" :: act :: rest) stages =
      syringeArm ("syringe" :: act :: rest) stages := rfl
  rw [hred]
  cases rest with
  | nil => rfl
  | cons v rest2 =>
    unfold syringeArm
    rw [if_neg (by simp : ¬ ("syringe" :: act :: v :: rest2).length < 3)]
    have hg1 : getTok ("syringe" :: act :: v :: rest2) 1 = Except.ok act := rfl
    rw [hg1, except_bind_ok]
    have hlk : lookupStage stages "stage_s" = Except.ok dev := by
      unfold lookupStage
      rw [hs]
    rw [hlk, except_bind_ok]
    have hg2 : getTok ("syringe" :: act :: v :: rest2) 2 = Except.ok v := rfl
    rcases ha with ha | ha
    · rw [if_pos ha]
      rw [hg2, except_bind_ok]
      cases hf : pyFloat v with
      | error e =>
        rw [except_bind_error]
        have he := pyFloat_error_shape v e hf
        subst he
        rfl
      | ok mm =>
        rw [except_bind_ok]
        have hev := evListOk_dispense dev mm false hl
        cases hd : dev.syringe_dispense mm false with
        | error e =>
          rw [except_bind_error]
          rw [hd] at hev
          exact hev
        | ok evs =>
          rw [except_bind_ok]
          rw [hd] at hev
          exact hev
    · rw [if_neg (by rw [ha]; decide), if_pos ha]
      rw [hg2, except_bind_ok]
      cases hf : pyFloat v with
      | error e =>
        rw [except_bind_error]
        have he := pyFloat_error_shape v e hf
        subst he
        rfl
      | ok mm =>
        rw [except_bind_ok]
        have hev := evListOk_retract dev mm false hl
        cases hd : dev.syringe_retract mm false with
        | error e =>
          rw [except_bind_error]
          rw [hd] at hev
          exact hev
        | ok evs =>
          rw [except_bind_ok]
          rw [hd] at hev
          exact hev

/-- C10 witness: `syringe dispense 1` on the standard registry targets
`stage_s` and cannot produce the `notASyringe` error. -/
theorem C10_syringe_dispatch_witness :
    syringeDispatchOk (handleTokens ["syringe", "dispense", "1"] stdStages) = true :=
  C10_syringe_dispatch stdStages (mkDevice "stage_s" 0 50) "dispense" ["1"]
    rfl rfl (Or.inl rfl)

theorem count_dotsSpecTrace_skeleton (xl zl sl : String)
    (px pz ps : SpeedProfile) (n : ℕ) (spacing amt : ℚ) (t : Event) :
    (dotsSpecTrace xl zl sl px pz ps n spacing amt).count t =
      (if t = Event.setSpeed xl (1/5 : ℚ) then 1 else 0) +
      ((List.range n).map
        (fun k => (dotBlock xl zl sl px pz ps n spacing amt k).count t)).sum +
      ([Event.home xl].count t) := by
  unfold dotsSpecTrace
  rw [List.count_cons, List.count_append, count_flatJoin, List.map_map]
  simp only [Function.comp_def, beq_iff_eq]
  by_cases ht : t = Event.setSpeed xl (1/5 : ℚ)
  · rw [if_pos ht, if_pos (by rw [ht])]
    omega
  · rw [if_neg ht, if_neg (fun hcc => ht hcc.symm)]
    omega

/-- C1: for every count at least 1, the dot routine succeeds and issues
exactly, in order: the x speed-set to 0.2, then for each dot the
(velocity-configured) +2 mm z move, the dispense, the -2 mm z move, and
for every dot but the last the x move of `spacing`, all blocking, and
finally one x home — the trace `dotsSpecTrace` written from the spec;
in particular the trace holds `count` z-advances, `count` dispenses,
`count` z-retreats, `count - 1` x-advances and one x-home.  Only the x
device changes state (its speed profile is now 0.2). -/
theorem C1_make_dots_trace (sx sy sz ss : Device) (c : ℤ) (spacing amt : ℚ)
    (px pz ps : SpeedProfile)
    (hc : 1 ≤ c)
    (hx : ((sx.set_speed (1/5)).1).activeProf = some px)
    (hz : sz.activeProf = some pz)
    (hsp : ss.activeProf = some ps)
    (hsl : ss.label = "stage_s")
    (hxz : sx.label ≠ sz.label) (hsz : ss.label ≠ sz.label)
    (hsx : ss.label ≠ sx.label) :
    make_dots sx sy sz ss c spacing amt =
      Except.ok (((sx.set_speed (1/5)).1, sy, sz, ss),
        dotsSpecTrace sx.label sz.label ss.label px pz ps c.toNat spacing amt) ∧
    (dotsSpecTrace sx.label sz.label ss.label px pz ps c.toNat spacing amt).count
      (Event.moveRelative sz.label 2 Units.LENGTH_MILLIMETRES true) = c.toNat ∧
    (dotsSpecTrace sx.label sz.label ss.label px pz ps c.toNat spacing amt).count
      (Event.moveRelative ss.label amt Units.LENGTH_MICROMETRES true) = c.toNat ∧
    (dotsSpecTrace sx.label sz.label ss.label px pz ps c.toNat spacing amt).count
      (Event.moveRelative sz.label (-2) Units.LENGTH_MILLIMETRES true) = c.toNat ∧
    (dotsSpecTrace sx.label sz.label ss.label px pz ps c.toNat spacing amt).count
      (Event.moveRelative sx.label spacing Units.LENGTH_MILLIMETRES true) = c.toNat - 1 ∧
    (dotsSpecTrace sx.label sz.label ss.label px pz ps c.toNat spacing amt).count
      (Event.home sx.label) = 1 := by
  have hxl : (sx.set_speed (1/5)).1.label = sx.label := label_set_speed sx (1/5)
  have hzx : sz.label ≠ sx.label := fun hcc => hxz hcc.symm
  have hzs : sz.label ≠ ss.label := fun hcc => hsz hcc.symm
  have hxs : sx.label ≠ ss.label := fun hcc => hsx hcc.symm
  have h2m : ((2 : ℚ) = -2) = False := by norm_num
  have hm2 : ((-2 : ℚ) = 2) = False := by norm_num
  have hcn : ((c.toNat : ℤ)) = c := Int.toNat_of_nonneg (by omega)
  constructor
  · -- the trace equality
    have hstep : ∀ i ∈ pyRange c,
        dotStep (sx.set_speed (1/5)).1 sz ss c spacing amt i =
          Except.ok (dotBlock sx.label sz.label ss.label px pz ps c.toNat
            spacing amt i.toNat) := by
      intro i hi
      unfold pyRange at hi
      obtain ⟨k, hk2, rfl⟩ := List.mem_map.mp hi
      have hk : k < c.toNat := List.mem_range.mp hk2
      show dotStep (sx.set_speed (1/5)).1 sz ss c spacing amt (Int.ofNat k) =
        Except.ok (dotBlock sx.label sz.label ss.label px pz ps c.toNat spacing amt k)
      unfold dotStep dotBlock
      rw [move_rel_ok sz pz 2 true hz, except_bind_ok]
      rw [syringe_dispense_ok ss ps amt true hsl hsp, except_bind_ok]
      rw [move_rel_ok sz pz (-2) true hz, except_bind_ok]
      by_cases hlast : Int.ofNat k < c - 1
      · have hlast2 : (k : ℤ) < c - 1 := hlast
        rw [if_pos hlast]
        rw [move_rel_ok _ px spacing true hx, except_bind_ok]
        rw [if_pos (by omega : k + 1 < c.toNat)]
        rw [hxl]
        rfl
      · have hlast2 : ¬ (k : ℤ) < c - 1 := hlast
        rw [if_neg hlast]
        rw [if_neg (by omega : ¬ k + 1 < c.toNat)]
        rfl
    have hmap : (pyRange c).mapM
        (dotStep (sx.set_speed (1/5)).1 sz ss c spacing amt) =
        Except.ok ((List.range c.toNat).map
          (dotBlock sx.label sz.label ss.label px pz ps c.toNat spacing amt)) := by
      rw [mapM_ok _ (fun i => dotBlock sx.label sz.label ss.label px pz ps
        c.toNat spacing amt i.toNat) _ hstep]
      unfold pyRange
      rw [List.map_map]
      apply congrArg
      apply List.map_congr_left
      intro k _
      rfl
    unfold make_dots
    dsimp only
    rw [hmap, except_bind_ok]
    unfold dotsSpecTrace Device.home
    rw [hxl]
    rfl
  · -- the counts
    refine ⟨?_, ?_, ?_, ?_, ?_⟩
    · rw [count_dotsSpecTrace_skeleton]
      have hb : ∀ k, (dotBlock sx.label sz.label ss.label px pz ps c.toNat
          spacing amt k).count
          (Event.moveRelative sz.label 2 Units.LENGTH_MILLIMETRES true) = 1 := by
        intro k
        unfold dotBlock relMoveCall
        by_cases hk : k + 1 < c.toNat <;>
          simp [hk, List.count_append, List.count_cons, hzx, hzs, h2m, hm2]
      simp only [hb, sum_map_one]
      simp [hzx]
    · rw [count_dotsSpecTrace_skeleton]
      have hb : ∀ k, (dotBlock sx.label sz.label ss.label px pz ps c.toNat
          spacing amt k).count
          (Event.moveRelative ss.label amt Units.LENGTH_MICROMETRES true) = 1 := by
        intro k
        unfold dotBlock relMoveCall
        by_cases hk : k + 1 < c.toNat <;>
          simp [hk, List.count_append, List.count_cons, hsz, hsx]
      simp only [hb, sum_map_one]
      simp [hsx]
    · rw [count_dotsSpecTrace_skeleton]
      have hb : ∀ k, (dotBlock sx.label sz.label ss.label px pz ps c.toNat
          spacing amt k).count
          (Event.moveRelative sz.label (-2) Units.LENGTH_MILLIMETRES true) = 1 := by
        intro k
        unfold dotBlock relMoveCall
        by_cases hk : k + 1 < c.toNat <;>
          simp [hk, List.count_append, List.count_cons, hzx, hzs, h2m, hm2]
      simp only [hb, sum_map_one]
      simp [hzx]
    · rw [count_dotsSpecTrace_skeleton]
      have hb : ∀ k, (dotBlock sx.label sz.label ss.label px pz ps c.toNat
          spacing amt k).count
          (Event.moveRelative sx.label spacing Units.LENGTH_MILLIMETRES true) =
          if k + 1 < c.toNat then 1 else 0 := by
        intro k
        unfold dotBlock relMoveCall
        by_cases hk : k + 1 < c.toNat <;>
          simp [hk, List.count_append, List.count_cons, hxz, hxs]
      simp only [hb, sum_map_if_lt]
      simp
    · rw [count_dotsSpecTrace_skeleton]
      have hb : ∀ k, (dotBlock sx.label sz.label ss.label px pz ps c.toNat
          spacing amt k).count (Event.home sx.label) = 0 := by
        intro k
        unfold dotBlock relMoveCall
        by_cases hk : k + 1 < c.toNat <;>
          simp [hk, List.count_append, List.count_cons]
      simp only [hb]
      simp

/-- C1 witness: three dots with spacing 5 and amount 1/10 on freshly
constructed devices: the routine succeeds with the spec trace, which
holds 3 z-advances, 3 dispenses, 3 z-retreats, 2 x-advances and 1
x-home. -/
theorem C1_make_dots_trace_witness :
    make_dots (mkDevice "stage_x" 0 100) (mkDevice "stage_y" 0 200)
        (mkDevice "stage_z" 0 50) (mkDevice "stage_s" 0 50) 3 5 (1/10) =
      Except.ok ((((mkDevice "stage_x" 0 100).set_speed (1/5)).1,
          mkDevice "stage_y" 0 200, mkDevice "stage_z" 0 50,
          mkDevice "stage_s" 0 50),
        dotsSpecTrace "stage_x" "stage_z" "stage_s"
          { vel := 1/5, acc := 0, unit := Units.VELOCITY_MILLIMETRES_PER_SECOND }
          { vel := 1, acc := 0, unit := Units.VELOCITY_MILLIMETRES_PER_SECOND }
          { vel := 1, acc := 0, unit := Units.VELOCITY_MILLIMETRES_PER_SECOND }
          3 5 (1/10)) ∧
    (dotsSpecTrace "stage_x" "stage_z" "stage_s"
      { vel := 1/5, acc := 0, unit := Units.VELOCITY_MILLIMETRES_PER_SECOND }
      { vel := 1, acc := 0, unit := Units.VELOCITY_MILLIMETRES_PER_SECOND }
      { vel := 1, acc := 0, unit := Units.VELOCITY_MILLIMETRES_PER_SECOND }
      3 5 (1/10)).count
      (Event.moveRelative "stage_z" 2 Units.LENGTH_MILLIMETRES true) = 3 ∧
    (dotsSpecTrace "stage_x" "stage_z" "stage_s"
      { vel := 1/5, acc := 0, unit := Units.VELOCITY_MILLIMETRES_PER_SECOND }
      { vel := 1, acc := 0, unit := Units.VELOCITY_MILLIMETRES_PER_SECOND }
      { vel := 1, acc := 0, unit := Units.VELOCITY_MILLIMETRES_PER_SECOND }
      3 5 (1/10)).count
      (Event.moveRelative "stage_s" (1/10) Units.LENGTH_MICROMETRES true) = 3 ∧
    (dotsSpecTrace "stage_x" "stage_z" "stage_s"
      { vel := 1/5, acc := 0, unit := Units.VELOCITY_MILLIMETRES_PER_SECOND }
      { vel := 1, acc := 0, unit := Units.VELOCITY_MILLIMETRES_PER_SECOND }
      { vel := 1, acc := 0, unit := Units.VELOCITY_MILLIMETRES_PER_SECOND }
      3 5 (1/10)).count
      (Event.moveRelative "stage_z" (-2) Units.LENGTH_MILLIMETRES true) = 3 ∧
    (dotsSpecTrace "stage_x" "stage_z" "stage_s"
      { vel := 1/5, acc := 0, unit := Units.VELOCITY_MILLIMETRES_PER_SECOND }
      { vel := 1, acc := 0, unit := Units.VELOCITY_MILLIMETRES_PER_SECOND }
      { vel := 1, acc := 0, unit := Units.VELOCITY_MILLIMETRES_PER_SECOND }
      3 5 (1/10)).count
      (Event.moveRelative "stage_x" 5 Units.LENGTH_MILLIMETRES true) = 2 ∧
    (dotsSpecTrace "stage_x" "stage_z" "stage_s"
      { vel := 1/5, acc := 0, unit := Units.VELOCITY_MILLIMETRES_PER_SECOND }
      { vel := 1, acc := 0, unit := Units.VELOCITY_MILLIMETRES_PER_SECOND }
      { vel := 1, acc := 0, unit := Units.VELOCITY_MILLIMETRES_PER_SECOND }
      3 5 (1/10)).count
      (Event.home "stage_x") = 1 :=
  C1_make_dots_trace (mkDevice "stage_x" 0 100) (mkDevice "stage_y" 0 200)
    (mkDevice "stage_z" 0 50) (mkDevice "stage_s" 0 50) 3 5 (1/10)
    { vel := 1/5, acc := 0, unit := Units.VELOCITY_MILLIMETRES_PER_SECOND }
    { vel := 1, acc := 0, unit := Units.VELOCITY_MILLIMETRES_PER_SECOND }
    { vel := 1, acc := 0, unit := Units.VELOCITY_MILLIMETRES_PER_SECOND }
    (by decide) rfl rfl rfl rfl (by decide) (by decide) (by decide)

end Gallium
